import Mathlib

/-!
Shallow embedding of the pipeline-orchestration and file-association core of the
SPHERE data-reduction package (sources: `sphere/IRDIS/SpectroReduction.py`,
`sphere/SPARTA.py`, `pysphere/IFS.py`).

Modelling conventions:
* pandas `DataFrame`s become Lean lists of records; a row's label (the `FILE`
  index) is the `file` field.  Only the columns the embedded methods read or
  branch on are carried.
* the `DET SEQ1 DIT` values are modelled as integers counting hundredths of a
  second, i.e. the value after `round(2)`; floating-point jitter is outside the
  model, so `.round(2)` is the identity on these values.
* acquisition timestamps (`DATE-OBS`) are modelled as integers.
* the recipe-status dictionary (`self._recipes_status`) becomes a function
  `String → RecipeStatus`, and every `self._update_recipe_status` call becomes a
  pointwise update.
* Python exceptions (e.g. `IndexError` from `.iloc[0]` / `.values[0]`) abort a
  method; the model returns the state exactly as mutated up to that point.
-/

/-- Recipe execution status: the `sphere.NOTSET` / `sphere.SUCCESS` /
`sphere.ERROR` constants. -/
inductive RecipeStatus where
  | NOTSET
  | SUCCESS
  | ERROR
deriving DecidableEq, Repr

/-- Overall reduction status: the `sphere.INIT` / `sphere.INCOMPLETE` /
`sphere.COMPLETE` / `sphere.FATAL` constants. -/
inductive ReductionStatus where
  | INIT
  | INCOMPLETE
  | COMPLETE
  | FATAL
deriving DecidableEq, Repr

/-- The recipe-status dictionary `self._recipes_status`, as a total map. -/
def StatusMap : Type := String → RecipeStatus

/-- Embedding of `self._update_recipe_status(recipe, status)`: point update of the
recipe-status dictionary. -/
def update_recipe_status (m : StatusMap) (recipe : String) (st : RecipeStatus) : StatusMap :=
  fun x => if x = recipe then st else m x

/-- Apply a list of `(recipe, status)` updates in order (the sequence of
`_update_recipe_status` calls performed by a method). -/
def applyUpdates (u : List (String × RecipeStatus)) (m : StatusMap) : StatusMap :=
  u.foldl (fun m kv => update_recipe_status m kv.1 kv.2) m

/-- pandas `unique()`: deduplicate, keeping the first occurrence of each value
in order. -/
def uniqueList {α : Type} [DecidableEq α] (l : List α) : List α :=
  l.foldl (fun acc a => if a ∈ acc then acc else acc ++ [a]) []

/-- pandas `Series.argsort()` (numpy semantics): a series with the SAME index as
the input, whose values are the integer positions that would sort the input
values ascending.  Note the index of the result is the original index, in the
original order — it is not reordered. -/
def seriesArgsort (s : List (String × Int)) : List (String × Nat) :=
  let order := (List.range s.length).mergeSort
    (fun i j => decide (((s.drop i).headD default).2 ≤ ((s.drop j).headD default).2))
  (s.map Prod.fst).zip order

/-- numpy/pandas `argmin`: position of the first occurrence of the minimum
value (documented numpy behaviour for ties). -/
def seriesArgmin (l : List Nat) : Nat :=
  match l.min? with
  | some m => l.findIdx (fun x => x == m)
  | none => 0

/-- Modelled from the spec: the gating predicate `toolbox.recipe_executable`
lives in `sphere/utils/toolbox.py`, which is not among the provided sources.
Spec section 4.2: "`isExecutable(recipeName) → bool` returns true iff overall
state ≠ Fatal and every prerequisite's status = Success"; when it is false the
calling recipe method logs an Error and returns without executing, leaving all
reduction state unchanged. -/
def recipe_executable (recipes : StatusMap) (status : ReductionStatus) (recipe : String)
    (requirements : List (String × List String)) : Bool :=
  !(status == ReductionStatus.FATAL) &&
    ((requirements.lookup recipe).getD []).all (fun r => recipes r == RecipeStatus.SUCCESS)

/-- Decimal rendering of a DIT stored as integer hundredths, as Python prints
the rounded float (`1.65 → "1.65"`, `4.0 → "4.0"`).  Only used inside log
messages; no theorem below depends on these strings. -/
def ditRepr (d : Int) : String :=
  let sign := if d < 0 then "-" else ""
  let a := d.natAbs
  let ip := a / 100
  let fr := a % 100
  if fr == 0 then sign ++ toString ip ++ ".0"
  else if fr % 10 == 0 then sign ++ toString ip ++ "." ++ toString (fr / 10)
  else if fr < 10 then sign ++ toString ip ++ ".0" ++ toString fr
  else sign ++ toString ip ++ "." ++ toString fr

/-- One-decimal rendering used by the `f'{wavecal_DIT:.1f}'` format of line
902 (approximates Python float formatting; no theorem depends on it). -/
def ditRepr1 (d : Int) : String :=
  let a := d.natAbs
  let t := a / 10
  (if d < 0 then "-" else "") ++ toString (t / 10) ++ "." ++ toString (t % 10)

namespace Spectro

/-- One row of the IRDIS `files_info` catalog (`files.csv`), restricted to the
columns read by the embedded methods.  `processed` / `proCatg` are the
`PROCESSED` / `PRO CATG` columns inserted by `sort_files`. -/
structure FileRecord where
  file : String
  dprCatg : String
  dprType : String
  seqArm : String
  ins1Mode : String
  insCombIflt : String
  detSeq1Dit : Int
  detNdit : Nat
  dateObs : Int
  processed : Bool
  proCatg : String
deriving DecidableEq, Repr

/-- A raw FITS file under `raw/` together with the header keywords read by
`sort_files`.  `DPR TYPE` may be missing (`hdr.get` returns `None`), which
makes `dropna(subset=['DPR TYPE'])` drop the row. -/
structure RawFile where
  file : String
  dprCatg : String
  dprType : Option String
  seqArm : String
  ins1Mode : String
  insCombIflt : String
  detSeq1Dit : Int
  detNdit : Nat
  dateObs : Int
deriving DecidableEq, Repr

/-- The row `sort_files` builds for a raw file whose `DPR TYPE` is present:
the keyword columns, plus `PROCESSED = False` and `PRO CATG = ' '`
(lines 672-673). -/
def RawFile.toRecord (r : RawFile) (t : String) : FileRecord :=
  { file := r.file, dprCatg := r.dprCatg, dprType := t, seqArm := r.seqArm,
    ins1Mode := r.ins1Mode, insCombIflt := r.insCombIflt,
    detSeq1Dit := r.detSeq1Dit, detNdit := r.detNdit, dateObs := r.dateObs,
    processed := false, proCatg := " " }

/-- The class variable `SpectroReduction.recipe_requirements`: for each recipe, the recipes that
must have been executed before. -/
def recipe_requirements : List (String × List String) :=
  [("sort_files", []),
   ("sort_frames", ["sort_files"]),
   ("check_files_association", ["sort_files"]),
   ("sph_ird_cal_dark", ["sort_files"]),
   ("sph_ird_cal_detector_flat", ["sort_files"]),
   ("sph_ird_cal_wave", ["sort_files", "sph_ird_cal_detector_flat"]),
   ("sph_ird_preprocess_science",
     ["sort_files", "sort_frames", "sph_ird_cal_dark", "sph_ird_cal_detector_flat"]),
   ("sph_ird_star_center", ["sort_files", "sort_frames", "sph_ird_cal_wave"]),
   ("sph_ird_wavelength_recalibration", ["sort_files", "sort_frames", "sph_ird_cal_wave"]),
   ("sph_ird_combine_data", ["sort_files", "sort_frames", "sph_ird_preprocess_science"]),
   ("sph_ird_clean", [])]

/-- A `(FILE, IMG)` row of `frames_preproc.csv`, restricted to the columns
`_read_info` consumes: the index pair and the `DPR TYPE` column. -/
structure FrameIdx where
  file : String
  img : Nat
  dprType : String
deriving DecidableEq, Repr

/-- The mutable state of a `SpectroReduction` object touched by the embedded
methods (`_files_info`, `_frames_info`, `_frames_info_preproc`, `_mode`,
`_recipes_status`, `_status`), together with the artifacts on disk that the
methods write and `_read_info` probes: the persisted catalog files under
`preproc/`, the two wavelength-calibration FITS files, and the per-sub-frame
pre-processing products (as `glob` predicates: `preprocFits f i` is true iff
`glob('{f}_DIT{i:03d}_preproc.fits')` matches exactly one file, and similarly
for `…_preproc_centers.fits`). -/
structure PState where
  filesInfo : Option (List FileRecord)
  framesInfo : Option (List ((String × Nat) × FileRecord))
  framesInfoPreproc : Option (List FrameIdx)
  recipes : StatusMap
  status : ReductionStatus
  mode : String
  diskFilesCsv : Option (List FileRecord)
  diskFramesCsv : Option (List ((String × Nat) × FileRecord))
  diskFramesPreprocCsv : Option (List FrameIdx)
  wavelengthDefaultFits : Bool
  wavelengthRecalibratedFits : Bool
  preprocFits : String → Nat → Bool
  preprocCentersFits : String → Nat → Bool

/-- Embedding of `SpectroReduction.sort_files` (lines 570-696).  `raw` is the listing of
`raw/*.fits` with the keywords read from their headers. -/
def sort_files (raw : List RawFile) (s : PState) : PState :=
  let s0 := { s with recipes := update_recipe_status s.recipes "sort_files" RecipeStatus.NOTSET }
  if raw.length == 0 then
    -- no raw FITS files: critical, sort_files = ERROR, status = FATAL
    { s0 with recipes := update_recipe_status s0.recipes "sort_files" RecipeStatus.ERROR,
              status := ReductionStatus.FATAL }
  else
    -- rows without 'DPR TYPE' are dropped, then unsupported file types
    let fi0 := raw.filterMap (fun r => r.dprType.map r.toRecord)
    let fi1 := fi0.filter (fun r =>
      !(r.dprCatg == "ACQUISITION") && !(r.dprType == "OBJECT,AO"))
    let instru := uniqueList (fi1.map (fun r => r.seqArm))
    if instru.length != 1 then
      -- sequence mixing different instruments
      { s0 with recipes := update_recipe_status s0.recipes "sort_files" RecipeStatus.ERROR,
                status := ReductionStatus.FATAL }
    else
      let sci_files := fi1.filter (fun r => r.dprCatg == "SCIENCE" && !(r.dprType == "SKY"))
      if sci_files.length == 0 then
        -- no science frame: note line 667 updates the status of 'sort_frames'
        { s0 with recipes := update_recipe_status s0.recipes "sort_frames" RecipeStatus.ERROR,
                  status := ReductionStatus.FATAL }
      else
        -- line 682: mode from the first SCIENCE row, before the sort of line 685
        let mode := ((fi1.filter (fun r => r.dprCatg == "SCIENCE")).map
          (fun r => r.ins1Mode)).headD s.mode
        let fi2 := fi1.mergeSort (fun a b => decide (a.dateObs ≤ b.dateObs))
        { s0 with
          filesInfo := some fi2,
          recipes := update_recipe_status s0.recipes "sort_files" RecipeStatus.SUCCESS,
          status := ReductionStatus.INCOMPLETE,
          mode := mode,
          diskFilesCsv := some fi2 }

/-- Lines 722-736 of `sort_frames`: the frame expansion.  For each science file
the `FILE` label is repeated `NDIT` times with sub-indices `0, …, NDIT-1`
(`np.repeat` / `np.arange`), and `frames_info.align(files_info, level=0)` makes
every `(FILE, IMG)` row inherit the parent catalog row. -/
def build_frames (sci_files : List FileRecord) : List ((String × Nat) × FileRecord) :=
  sci_files.flatMap (fun f => (List.range f.detNdit).map (fun i => ((f.file, i), f)))

/-- Embedding of `SpectroReduction.sort_frames` (lines 699-808).  `angles_ok` models the
return value of the external `toolbox.compute_angles` collaborator
(`false` iff it returns `sphere.ERROR`). -/
def sort_frames (angles_ok : Bool) (s : PState) : PState :=
  if !(recipe_executable s.recipes s.status "sort_frames" recipe_requirements) then
    s
  else
    match s.filesInfo with
    | none =>
      -- `files_info` is `None`: line 720 raises TypeError before any mutation
      s
    | some files_info =>
    let sci_files := files_info.filter (fun r =>
      r.dprCatg == "SCIENCE" && !(r.dprType == "SKY"))
    let frames := build_frames sci_files
    -- toolbox.compute_times mutates only timing columns; compute_angles may fail
    if !angles_ok then
      { s with recipes := update_recipe_status s.recipes "sort_frames" RecipeStatus.ERROR,
               status := ReductionStatus.FATAL }
    else
      -- lines 750-752: frames.csv is saved before the observation-info block
      let s1 := { s with framesInfo := some frames, diskFramesCsv := some frames }
      let cinfo := frames.filter (fun fr => fr.2.dprType == "OBJECT")
      let cinfo2 := if cinfo.length == 0 then
          frames.filter (fun fr => fr.2.dprType == "OBJECT,CENTER")
        else cinfo
      if cinfo2.length == 0 then
        -- line 762 `cinfo[...].iloc[0]` raises IndexError: the method aborts here
        s1
      else
        { s1 with recipes := update_recipe_status s1.recipes "sort_frames" RecipeStatus.SUCCESS,
                  status := ReductionStatus.INCOMPLETE }

/-- Outcome of the requirement-checking section of
`SpectroReduction.check_files_association` (lines 862-926): the error/warning
contributions and logged messages of each check, and `files_info` as left
after the in-place `drop` of line 892. -/
structure AssocChecks where
  files2 : List FileRecord
  flat_error : Nat
  flat_msgs : List String
  wave_error : Nat
  wave_warning : Nat
  wave_msgs : List String
  wavecal_dark_error : Nat
  wavecal_dark_msgs : List String
  dit_warning : Nat
  dit_msgs : List String
deriving DecidableEq, Repr

/-- The final value of the `error_flag` counter accumulated by lines 865-926:
only the flat, wavelength-calibration and wavelength-calibration-dark checks
ever increment it. -/
def AssocChecks.error_flag (a : AssocChecks) : Nat :=
  a.flat_error + a.wave_error + a.wavecal_dark_error

/-- The final value of the `warning_flag` counter accumulated by lines
865-926. -/
def AssocChecks.warning_flag (a : AssocChecks) : Nat :=
  a.wave_warning + a.dit_warning

/-- Lines 856-926 of `check_files_association`: the calibration subset and the
sequence of `CalibrationRequirement` checks.  Returns `none` when line 894
(`…'DET SEQ1 DIT'].values[0]`) raises `IndexError`, which happens exactly when
no `LAMP,WAVE` row with the active filter combination exists. -/
def assoc_checks (filter_comb : String) (files_info : List FileRecord) :
    Option AssocChecks :=
  -- keep static calibrations and sky backgrounds (lines 859-860)
  let calibs := files_info.filter (fun r =>
    r.dprCatg == "CALIB" || (r.dprCatg == "SCIENCE" && r.dprType == "SKY"))
  -- flat (lines 869-873)
  let cfiles_flat := calibs.filter (fun r =>
    r.dprType == "FLAT,LAMP" && r.insCombIflt == filter_comb)
  let flat_error := if cfiles_flat.length ≤ 1 then 1 else 0
  let flat_msgs := if cfiles_flat.length ≤ 1 then
      [" * there should be more than 1 flat in filter combination " ++ filter_comb]
    else []
  -- wavelength calibration (lines 876-892)
  let cfiles_wave := calibs.filter (fun r =>
    r.dprType == "LAMP,WAVE" && r.insCombIflt == filter_comb)
  let wave_error := if cfiles_wave.length == 0 then 1 else 0
  let wave_warning := if cfiles_wave.length > 1 then 1 else 0
  let wave_msgs :=
    if cfiles_wave.length == 0 then
      [" * there should be 1 wavelength calibration file, found none."]
    else if cfiles_wave.length > 1 then
      [" * there should be 1 wavelength calibration file, found " ++
        toString cfiles_wave.length ++ ". Using the closest from science."]
    else []
  -- lines 885-892: with more than one wave file, drop all but one in place.
  -- `time_delta = np.abs(time_sci - time_flat).argsort()` keeps the ORIGINAL
  -- index order (see `seriesArgsort`), so `time_delta[1:].index` is the list
  -- of candidate labels minus its positional head.
  let files2 :=
    if cfiles_wave.length > 1 then
      let sci_files := files_info.filter (fun r => r.dprCatg == "SCIENCE")
      let time_sci := ((sci_files.map (fun r => r.dateObs)).min?).getD 0
      let time_delta := seriesArgsort (cfiles_wave.map (fun r =>
        (r.file, |time_sci - r.dateObs|)))
      let dropped := (time_delta.drop 1).map Prod.fst
      files_info.filter (fun r => !(dropped.contains r.file))
    else files_info
  -- line 894: wavecal_DIT from the (post-drop) files_info; `.values[0]`
  match files2.filter (fun r =>
      r.dprType == "LAMP,WAVE" && r.insCombIflt == filter_comb) with
  | [] => none
  | w :: _ =>
    let wavecal_DIT := w.detSeq1Dit
    -- dark for the wavelength calibration (lines 897-902)
    let cfiles_wdark := calibs.filter (fun r =>
      (r.dprType == "DARK" || r.dprType == "DARK,BACKGROUND") &&
        r.detSeq1Dit == wavecal_DIT)
    let wavecal_dark_error := if cfiles_wdark.length == 0 then 1 else 0
    let wavecal_dark_msgs := if cfiles_wdark.length == 0 then
        [" * there is no dark/background for the wavelength calibration (DIT=" ++
          ditRepr1 wavecal_DIT ++
          " sec). It is mandatory to include one to obtain the best data reduction. A single dark/background file is sufficient, and it can easily be downloaded from the ESO archive"]
      else []
    -- static calibrations that depend on the science DIT (lines 908-926)
    let DITs := uniqueList ((files2.filter (fun r =>
      r.dprCatg == "SCIENCE" && r.dprType.take 6 == "OBJECT")).map
        (fun r => r.detSeq1Dit))
    let dit_results := DITs.map (fun DIT =>
      let cdark := calibs.filter (fun r =>
        (r.dprType == "DARK" || r.dprType == "DARK,BACKGROUND") &&
          r.detSeq1Dit == DIT)
      let dmsg : List String := if cdark.length == 0 then
          [" * there is no dark/background for science files with DIT=" ++
            ditRepr DIT ++
            " sec. It is *highly recommended* to include one to obtain the best data reduction. A single dark/background file is sufficient, and it can easily be downloaded from the ESO archive"]
        else []
      let csky := files2.filter (fun r =>
        r.dprType == "SKY" && r.detSeq1Dit == DIT)
      let smsg : List String := if csky.length == 0 then
          [" * there is no sky background for science files with DIT=" ++
            ditRepr DIT ++
            " sec. Using a sky background instead of an internal instrumental background can usually provide a cleaner data reduction"]
        else []
      ((if cdark.length == 0 then 1 else 0) + (if csky.length == 0 then 1 else 0),
        dmsg ++ smsg))
    some { files2 := files2,
           flat_error := flat_error, flat_msgs := flat_msgs,
           wave_error := wave_error, wave_warning := wave_warning,
           wave_msgs := wave_msgs,
           wavecal_dark_error := wavecal_dark_error,
           wavecal_dark_msgs := wavecal_dark_msgs,
           dit_warning := (dit_results.map Prod.fst).sum,
           dit_msgs := (dit_results.map Prod.snd).flatten }

/-- Embedding of `SpectroReduction.check_files_association` (lines 811-945). -/
def check_files_association (s : PState) : PState :=
  if !(recipe_executable s.recipes s.status "check_files_association"
        recipe_requirements) then
    s
  else
    match s.filesInfo with
    | none =>
      -- `files_info` is `None`: line 831 raises TypeError before any mutation
      s
    | some files_info =>
    -- instrument arm (lines 831-835)
    let arm := uniqueList (files_info.map (fun r => r.seqArm))
    if arm.length != 1 then
      { s with recipes := (update_recipe_status s.recipes "check_files_association"
          RecipeStatus.ERROR) }
    else
    -- obs mode (lines 838-842): line 840 calls `self._logger.eror`, an
    -- attribute that does not exist, so this branch raises AttributeError
    -- before any state is mutated
    let modes := uniqueList ((files_info.filter (fun r =>
      r.dprCatg == "SCIENCE")).map (fun r => r.ins1Mode))
    if modes.length != 1 then
      s
    else
    -- filter combination (lines 844-854)
    let filter_combs := uniqueList ((files_info.filter (fun r =>
      r.dprCatg == "SCIENCE")).map (fun r => r.insCombIflt))
    if filter_combs.length != 1 then
      { s with recipes := (update_recipe_status s.recipes "check_files_association"
          RecipeStatus.ERROR) }
    else
    let filter_comb := filter_combs.headD ""
    if !(filter_comb == "S_LR") && !(filter_comb == "S_MR") then
      { s with recipes := (update_recipe_status s.recipes "check_files_association"
          RecipeStatus.ERROR) }
    else
    match assoc_checks filter_comb files_info with
    | none =>
      -- IndexError at line 894.  The in-place drop of line 892 requires ≥ 2
      -- wave files while the abort requires 0, so the state is unchanged.
      s
    | some res =>
      -- the `inplace=True` drop of line 892 has already mutated the catalog
      let s1 := { s with filesInfo := some res.files2 }
      if res.error_flag != 0 then
        -- lines 930-933: report, mark the recipe ERROR, interrupt (no save,
        -- and the overall status is left as it was)
        { s1 with recipes := (update_recipe_status s1.recipes
            "check_files_association" RecipeStatus.ERROR) }
      else
        -- lines 937-945: save files.csv, mark SUCCESS, status = INCOMPLETE
        { s1 with diskFilesCsv := some res.files2,
                  recipes := (update_recipe_status s1.recipes
                    "check_files_association" RecipeStatus.SUCCESS),
                  status := ReductionStatus.INCOMPLETE }

/-- Whether `_read_info` aborts with `IndexError` at line 468 (`…'INS1 MODE'].iloc[0]`)
exactly when `files.csv` exists but contains no SCIENCE row. -/
def read_info_aborts (s : PState) : Bool :=
  match s.diskFilesCsv with
  | some fi => (fi.filter (fun r => r.dprCatg == "SCIENCE")).isEmpty
  | none => false

/-- The sequence of `_update_recipe_status` calls performed by
`SpectroReduction._read_info` (lines 421-546), in program order, as a function
of the on-disk evidence.  The sequence is cut short when line 468 raises. -/
def read_info_updates (s : PState) : List (String × RecipeStatus) :=
  (match s.diskFilesCsv with
   | some fi =>
     [("sort_files", RecipeStatus.SUCCESS)]
     ++ (if fi.any (fun r => r.proCatg == "IRD_MASTER_DARK") then
          [("sph_ird_cal_dark", RecipeStatus.SUCCESS)] else [])
     ++ (if fi.any (fun r => r.proCatg == "IRD_FLAT_FIELD") then
          [("sph_ird_cal_detector_flat", RecipeStatus.SUCCESS)] else [])
     ++ (if fi.any (fun r => r.proCatg == "IRD_WAVECALIB") then
          [("sph_ird_cal_wave", RecipeStatus.SUCCESS)] else [])
   | none => [])
  ++ (if read_info_aborts s then [] else
      (if s.diskFramesCsv.isSome then [("sort_frames", RecipeStatus.SUCCESS)] else [])
      ++ (match s.diskFramesPreprocCsv with
          | some fp =>
            (if s.wavelengthDefaultFits then
              [("sph_ird_cal_wave", RecipeStatus.SUCCESS)] else [])
            ++ (if s.wavelengthRecalibratedFits then
              [("sph_ird_wavelength_recalibration", RecipeStatus.SUCCESS)] else [])
            ++ (if fp.all (fun r => s.preprocFits r.file r.img) then
              [("sph_ird_preprocess_science", RecipeStatus.SUCCESS)] else [])
            ++ (if (fp.filter (fun r =>
                  r.dprType == "OBJECT,FLUX" || r.dprType == "OBJECT,CENTER")).all
                  (fun r => s.preprocCentersFits r.file r.img) then
              [("sph_ird_star_center", RecipeStatus.SUCCESS)] else [])
          | none => []))

/-- Embedding of `SpectroReduction._read_info` (lines 421-546): reconstruct the recipe
statuses, the data frames and the instrument mode from the artifacts on disk;
finally set the overall status to `INCOMPLETE`. -/
def read_info (s : PState) : PState :=
  let recipes := applyUpdates (read_info_updates s) s.recipes
  if read_info_aborts s then
    -- IndexError at line 468: only the statuses already set stick; the data
    -- frames, mode and overall status are untouched
    { s with recipes := recipes }
  else
    { s with
      filesInfo := s.diskFilesCsv,
      framesInfo := s.diskFramesCsv,
      framesInfoPreproc := s.diskFramesPreprocCsv,
      recipes := recipes,
      status := ReductionStatus.INCOMPLETE,
      mode := match s.diskFilesCsv with
              | some fi => ((fi.filter (fun r => r.dprCatg == "SCIENCE")).map
                  (fun r => r.ins1Mode)).headD s.mode
              | none => s.mode }

/-- Lines 2374-2390 of `sph_ird_combine_data`: choose which `OBJECT,CENTER`
sub-frame applies to a science frame.  `cen_times` are the `DATE-OBS` values of
`starcen_files` in catalog order, `time_sci` the science frame's `DATE-OBS`.
Returns the selected integer position, or `none` for an unknown selection
policy (the error branch of line 2385). -/
def select_center_index (center_selection : String) (cen_times : List Int)
    (time_sci : Int) : Option Nat :=
  let cs := center_selection.toLower
  if cs == "first" then
    some 0
  else if cs == "last" then
    some (cen_times.length - 1)
  else if cs == "time" then
    some (seriesArgmin (cen_times.map (fun t => (time_sci - t).natAbs)))
  else
    none

end Spectro

namespace Sparta

/-- The on-disk evidence probed by `sphere/SPARTA.py Reduction._read_info`
(lines 210-315), and the `Reduction` state it mutates.  The contents of the
product csv files are never branched on by `_read_info`, so only the file
identifiers are carried. -/
structure RState where
  filesInfo : Option (List String)
  recipes : StatusMap
  status : ReductionStatus
  diskFilesCsv : Option (List String)
  diskDttsFramesCsv : Bool
  diskVisloopFramesCsv : Bool
  diskIrloopFramesCsv : Bool
  diskAtmosphericFramesCsv : Bool

/-- The sequence of `_update_recipe_status` calls performed by
`Reduction._read_info`, in program order.  Note lines 260 and 275: the local
flags `visloop` and `irloop` are initialized to `False` and are NEVER set to
`True` inside the branches that read `visloop_frames.csv` and
`irloop_frames.csv`, so the test of line 289 is always false and
`sph_sparta_wfs_parameters` is always re-marked `NOTSET`. -/
def read_info_updates (s : RState) : List (String × RecipeStatus) :=
  (if s.diskFilesCsv.isSome then [("sort_files", RecipeStatus.SUCCESS)] else [])
  ++ (if s.diskDttsFramesCsv then [("sph_sparta_dtts", RecipeStatus.SUCCESS)] else [])
  ++ (let visloop := false
      let irloop := false
      [("sph_sparta_wfs_parameters",
        if visloop && irloop then RecipeStatus.SUCCESS else RecipeStatus.NOTSET)])
  ++ (if s.diskAtmosphericFramesCsv then
        [("sph_sparta_atmospheric_parameters", RecipeStatus.SUCCESS)] else [])

/-- Embedding of `Reduction._read_info` (SPARTA variant, lines 210-315). -/
def read_info (s : RState) : RState :=
  { s with
    recipes := applyUpdates (read_info_updates s) s.recipes,
    filesInfo := s.diskFilesCsv,
    status := ReductionStatus.INCOMPLETE }

end Sparta

namespace IFS

/-- One row of the `pysphere/IFS.py` `files_info` table, restricted to the
columns `files_association` reads. -/
structure FileRecord where
  file : String
  dprCatg : String
  dprType : String
  dprTech : String
  ins2CombIfs : String
  detSeq1Dit : Int
  detNdit : Nat
  processed : Bool
deriving DecidableEq, Repr

/-- The per-requirement messages printed by `pysphere/IFS.py
files_association` (lines 111-229), grouped by the check that emits them, in
program order. -/
structure AssocChecks where
  whiteFlat : List String
  flat1020 : List String
  flat1230 : List String
  flat1300 : List String
  flat1550 : List String
  specpos : List String
  waveCalib : List String
  ifuFlat : List String
  calibsDark : List String
  ditChecks : List String
deriving DecidableEq, Repr

/-- All messages of a `files_association` run, in the order printed. -/
def AssocChecks.allMessages (a : AssocChecks) : List String :=
  a.whiteFlat ++ a.flat1020 ++ a.flat1230 ++ a.flat1300 ++ a.flat1550 ++
  a.specpos ++ a.waveCalib ++ a.ifuFlat ++ a.calibsDark ++ a.ditChecks

/-- The number of 2-per-channel flat requirement checks of lines 148-172 that
match `DPR TYPE == 'FLAT,LAMP'` and a given `INS2 COMB IFS` value. -/
def countFlat (calibs : List FileRecord) (comb : String) : Nat :=
  (calibs.filter (fun r => r.dprType == "FLAT,LAMP" && r.ins2CombIfs == comb)).length

/-- Lines 139-229 of `pysphere/IFS.py files_association`: the calibration
subset and the per-requirement checks, given the already-determined IFS mode
(`mode`, e.g. `OBS_H`) and its short form (`mode_short`, e.g. `YJH`).
Returns the grouped messages together with the `calibs` subset the function
saves and returns. -/
def assoc_checks (mode mode_short : String) (files_info : List FileRecord) :
    AssocChecks × List FileRecord :=
  -- keep static calibrations and sky backgrounds (lines 141-142)
  let calibs := files_info.filter (fun r =>
    r.dprCatg == "CALIB" || (r.dprCatg == "SCIENCE" && r.dprType == "SKY"))
  -- flats for the white lamp and the narrow-band lamps (lines 148-172)
  let whiteFlat := if countFlat calibs ("CAL_BB_2_" ++ mode_short) != 2 then
      [" * Error: there should be 2 flat files for white lamp!"] else []
  let flat1020 := if countFlat calibs ("CAL_NB1_1_" ++ mode_short) != 2 then
      [" * Error: there should be 2 flat files for 1020 nm filter!"] else []
  let flat1230 := if countFlat calibs ("CAL_NB2_1_" ++ mode_short) != 2 then
      [" * Error: there should be 2 flat files for 1230 nm filter!"] else []
  let flat1300 := if countFlat calibs ("CAL_NB3_1_" ++ mode_short) != 2 then
      [" * Error: there should be 2 flat files for 1300 nm filter!"] else []
  -- 1550 nm flat: only required in YJH mode (lines 168-172)
  let flat1550 := if mode_short == "YJH" then
      (if countFlat calibs ("CAL_NB4_2_" ++ mode_short) != 2 then
        [" * Error: there should be 2 flat files for 1550 nm filter!"] else [])
    else []
  -- spectra position (lines 174-177)
  let specpos := if (calibs.filter (fun r =>
      r.dprType == "SPECPOS,LAMP" && r.ins2CombIfs == mode)).length != 1 then
      [" * Error: there should be 1 spectra position file!"] else []
  -- wavelength (lines 179-182)
  let waveCalib := if (calibs.filter (fun r =>
      r.dprType == "WAVE,LAMP" && r.ins2CombIfs == mode)).length != 1 then
      [" * Error: there should be 1 wavelength calibration file!"] else []
  -- IFU flat (lines 184-187)
  let ifuFlat := if (calibs.filter (fun r =>
      r.dprType == "FLAT,LAMP" && r.ins2CombIfs == mode)).length != 1 then
      [" * Error: there should be 1 IFU flat file!"] else []
  -- calibs dark file (lines 189-196): DIT fixed at 1.65 s
  let calibsDark := if (calibs.filter (fun r =>
      (r.dprType == "DARK" || r.dprType == "DARK,BACKGROUND") &&
        r.detSeq1Dit == 165)).length != 1 then
      [" * Warning: there is no dark/background for the basic calibrations (DIT=1.6 sec). It is *highly recommended* to include one to obtain the best data reduction. A single dark/background file is sufficient, and it can easily be downloaded from the ESO archive"]
    else []
  -- static calibrations that depend on the science DIT (lines 202-221)
  let DITs := uniqueList ((files_info.filter (fun r =>
    r.dprCatg == "SCIENCE" && r.dprType.take 6 == "OBJECT")).map
      (fun r => r.detSeq1Dit))
  let ditChecks := DITs.flatMap (fun DIT =>
    (if (calibs.filter (fun r =>
        (r.dprType == "DARK" || r.dprType == "DARK,BACKGROUND") &&
          r.detSeq1Dit == DIT)).length == 0 then
      [" * Warning: there is no dark/background for science files with DIT=" ++
        ditRepr DIT ++
        " sec. it is *highly recommended* to include one to obtain the best data reduction. A single dark/background file is sufficient, and it can easily be downloaded from the ESO archive"]
    else []) ++
    (if (files_info.filter (fun r =>
        r.dprType == "SKY" && r.detSeq1Dit == DIT)).length == 0 then
      [" * Warning: there is no sky background for science files with DIT=" ++
        ditRepr DIT ++
        " sec. Using a sky background instead of an internal instrumental background can usually provide a cleaner data reduction"]
    else []))
  ({ whiteFlat := whiteFlat, flat1020 := flat1020, flat1230 := flat1230,
     flat1300 := flat1300, flat1550 := flat1550, specpos := specpos,
     waveCalib := waveCalib, ifuFlat := ifuFlat, calibsDark := calibsDark,
     ditChecks := ditChecks }, calibs)

/-- Embedding of `pysphere/IFS.py files_association` (lines 111-229).  Returns
`Except.error` for the `raise ValueError` paths (mixed or unknown IFS
modes). -/
def files_association (files_info : List FileRecord) :
    Except String (AssocChecks × List FileRecord) := do
  -- IFS obs mode (lines 127-137)
  let modes := (files_info.filter (fun r => r.dprCatg == "SCIENCE")).map
    (fun r => r.ins2CombIfs)
  if (uniqueList modes).length != 1 then
    throw "Sequence is mixing YJ and YJH observations."
  let mode := (uniqueList modes).headD ""
  let mode_short ← if mode == "OBS_YJ" then pure "YJ"
    else if mode == "OBS_H" then pure "YJH"
    else throw ("Unknown IFS mode " ++ mode)
  pure (assoc_checks mode mode_short files_info)

end IFS

namespace Examples

/-- An all-`NOTSET` recipe-status map, as right after construction
(lines 237-238 initialize every recipe to `sphere.NOTSET`). -/
def initMap : StatusMap := fun _ => RecipeStatus.NOTSET

/-- A freshly constructed IRDIS reduction state: no catalogs in memory,
nothing on disk. -/
def freshState : Spectro.PState :=
  { filesInfo := none, framesInfo := none, framesInfoPreproc := none,
    recipes := initMap, status := ReductionStatus.INIT, mode := "Unknown",
    diskFilesCsv := none, diskFramesCsv := none, diskFramesPreprocCsv := none,
    wavelengthDefaultFits := false, wavelengthRecalibratedFits := false,
    preprocFits := fun _ _ => false, preprocCentersFits := fun _ _ => false }

/-- The state `freshState` after the overall status has become `FATAL`. -/
def fatalState : Spectro.PState :=
  { freshState with status := ReductionStatus.FATAL }

/-- Catalog-row builder for the concrete IRDIS test datasets: an `S_LR`
long-slit-spectroscopy row. -/
def row (file catg typ : String) (dit : Int) (date : Int) (ndit : Nat) :
    Spectro.FileRecord :=
  { file := file, dprCatg := catg, dprType := typ, seqArm := "IRDIS",
    ins1Mode := "LSS", insCombIflt := "S_LR", detSeq1Dit := dit,
    detNdit := ndit, dateObs := date, processed := false, proCatg := " " }

/-- A raw directory holding one valid science FITS file. -/
def c5raw : List Spectro.RawFile :=
  [{ file := "sci1", dprCatg := "SCIENCE", dprType := some "OBJECT",
     seqArm := "IRDIS", ins1Mode := "LSS", insCombIflt := "S_LR",
     detSeq1Dit := 165, detNdit := 1, dateObs := 0 }]

/-- Catalog for the association-error scenario: a complete `S_LR` science
sequence except that NO `FLAT,LAMP` calibration is present (the flat
cardinality rule is the only unmet Fatal-severity rule). -/
def c2cat : List Spectro.FileRecord :=
  [row "wave1" "CALIB" "LAMP,WAVE" 165 50 1,
   row "dark1" "CALIB" "DARK" 165 60 1,
   row "sky1" "SCIENCE" "SKY" 165 70 1,
   row "sci1" "SCIENCE" "OBJECT" 165 100 1]

/-- Reduction state holding `c2cat`, with `sort_files` already successful. -/
def c2state : Spectro.PState :=
  { freshState with
    filesInfo := some c2cat,
    diskFilesCsv := some c2cat,
    recipes := update_recipe_status initMap "sort_files" RecipeStatus.SUCCESS,
    status := ReductionStatus.INCOMPLETE }

/-- The association-check outcome on `c2cat`: one error (the flat rule) and
nothing else. -/
def c2res : Spectro.AssocChecks :=
  { files2 := c2cat,
    flat_error := 1,
    flat_msgs := [" * there should be more than 1 flat in filter combination S_LR"],
    wave_error := 0, wave_warning := 0, wave_msgs := [],
    wavecal_dark_error := 0, wavecal_dark_msgs := [],
    dit_warning := 0, dit_msgs := [] }

/-- Catalog for the wavelength-calibration tie-break scenario: two `LAMP,WAVE`
records, at t=0 (`waveA`) and t=100 (`waveB`); the earliest SCIENCE
acquisition is at t=99, so `waveB` is the time-closest candidate. -/
def c3cat : List Spectro.FileRecord :=
  [row "waveA" "CALIB" "LAMP,WAVE" 165 0 1,
   row "flat1" "CALIB" "FLAT,LAMP" 165 10 1,
   row "flat2" "CALIB" "FLAT,LAMP" 165 20 1,
   row "darkA" "CALIB" "DARK" 165 30 1,
   row "sci1" "SCIENCE" "OBJECT" 165 99 1,
   row "waveB" "CALIB" "LAMP,WAVE" 165 100 1]

/-- Reduction state holding `c3cat`, with `sort_files` already successful. -/
def c3state : Spectro.PState :=
  { freshState with
    filesInfo := some c3cat,
    diskFilesCsv := some c3cat,
    recipes := update_recipe_status initMap "sort_files" RecipeStatus.SUCCESS,
    status := ReductionStatus.INCOMPLETE }

/-- The catalog `c3cat` without `waveB`: what the association pass actually keeps. -/
def c3kept : List Spectro.FileRecord :=
  [row "waveA" "CALIB" "LAMP,WAVE" 165 0 1,
   row "flat1" "CALIB" "FLAT,LAMP" 165 10 1,
   row "flat2" "CALIB" "FLAT,LAMP" 165 20 1,
   row "darkA" "CALIB" "DARK" 165 30 1,
   row "sci1" "SCIENCE" "OBJECT" 165 99 1]

/-- Catalog for the DIT-grouping scenario: science DITs 1.65 s and 4.00 s,
skies at both DITs, but a dark only at 1.65 s. -/
def c8cat : List Spectro.FileRecord :=
  [row "flat1" "CALIB" "FLAT,LAMP" 165 10 1,
   row "flat2" "CALIB" "FLAT,LAMP" 165 20 1,
   row "wave1" "CALIB" "LAMP,WAVE" 165 30 1,
   row "dark1" "CALIB" "DARK" 165 40 1,
   row "sky1" "SCIENCE" "SKY" 165 50 1,
   row "sky2" "SCIENCE" "SKY" 400 55 1,
   row "sci1" "SCIENCE" "OBJECT" 165 100 1,
   row "sci2" "SCIENCE" "OBJECT" 400 110 1]

/-- Reduction state holding `c8cat`, with `sort_files` already successful. -/
def c8state : Spectro.PState :=
  { freshState with
    filesInfo := some c8cat,
    diskFilesCsv := some c8cat,
    recipes := update_recipe_status initMap "sort_files" RecipeStatus.SUCCESS,
    status := ReductionStatus.INCOMPLETE }

/-- The association-check outcome on `c8cat`: no errors; exactly one warning,
for the missing dark at DIT=4.00 s. -/
def c8res : Spectro.AssocChecks :=
  { files2 := c8cat,
    flat_error := 0, flat_msgs := [],
    wave_error := 0, wave_warning := 0, wave_msgs := [],
    wavecal_dark_error := 0, wavecal_dark_msgs := [],
    dit_warning := 1,
    dit_msgs := [" * there is no dark/background for science files with DIT=4.0 sec. It is *highly recommended* to include one to obtain the best data reduction. A single dark/background file is sufficient, and it can easily be downloaded from the ESO archive"] }

/-- Catalog for the frame-expansion scenario: one science cube with NDIT=3 and
one calibration file. -/
def c7cat : List Spectro.FileRecord :=
  [row "sci1" "SCIENCE" "OBJECT" 165 0 3,
   row "dark1" "CALIB" "DARK" 165 5 2]

/-- IFS catalog-row builder. -/
def ifsRow (file catg typ comb : String) (dit : Int) : IFS.FileRecord :=
  { file := file, dprCatg := catg, dprType := typ, dprTech := "IFU",
    ins2CombIfs := comb, detSeq1Dit := dit, detNdit := 1, processed := false }

/-- IFS catalog for the flat-cardinality scenario: a complete `OBS_H` (YJH)
dataset, except that the 1550 nm (`CAL_NB4_2_YJH`) flat appears only ONCE. -/
def c6cat : List IFS.FileRecord :=
  [ifsRow "bb1" "CALIB" "FLAT,LAMP" "CAL_BB_2_YJH" 165,
   ifsRow "bb2" "CALIB" "FLAT,LAMP" "CAL_BB_2_YJH" 165,
   ifsRow "nb1a" "CALIB" "FLAT,LAMP" "CAL_NB1_1_YJH" 165,
   ifsRow "nb1b" "CALIB" "FLAT,LAMP" "CAL_NB1_1_YJH" 165,
   ifsRow "nb2a" "CALIB" "FLAT,LAMP" "CAL_NB2_1_YJH" 165,
   ifsRow "nb2b" "CALIB" "FLAT,LAMP" "CAL_NB2_1_YJH" 165,
   ifsRow "nb3a" "CALIB" "FLAT,LAMP" "CAL_NB3_1_YJH" 165,
   ifsRow "nb3b" "CALIB" "FLAT,LAMP" "CAL_NB3_1_YJH" 165,
   ifsRow "nb4a" "CALIB" "FLAT,LAMP" "CAL_NB4_2_YJH" 165,
   ifsRow "sp1" "CALIB" "SPECPOS,LAMP" "OBS_H" 165,
   ifsRow "wc1" "CALIB" "WAVE,LAMP" "OBS_H" 165,
   ifsRow "if1" "CALIB" "FLAT,LAMP" "OBS_H" 165,
   ifsRow "dk1" "CALIB" "DARK" "OBS_H" 165,
   ifsRow "sky1" "SCIENCE" "SKY" "OBS_H" 165,
   ifsRow "sci1" "SCIENCE" "OBJECT" "OBS_H" 165]

/-- The calibration subset of `c6cat` (everything except the OBJECT row). -/
def c6calibs : List IFS.FileRecord :=
  [ifsRow "bb1" "CALIB" "FLAT,LAMP" "CAL_BB_2_YJH" 165,
   ifsRow "bb2" "CALIB" "FLAT,LAMP" "CAL_BB_2_YJH" 165,
   ifsRow "nb1a" "CALIB" "FLAT,LAMP" "CAL_NB1_1_YJH" 165,
   ifsRow "nb1b" "CALIB" "FLAT,LAMP" "CAL_NB1_1_YJH" 165,
   ifsRow "nb2a" "CALIB" "FLAT,LAMP" "CAL_NB2_1_YJH" 165,
   ifsRow "nb2b" "CALIB" "FLAT,LAMP" "CAL_NB2_1_YJH" 165,
   ifsRow "nb3a" "CALIB" "FLAT,LAMP" "CAL_NB3_1_YJH" 165,
   ifsRow "nb3b" "CALIB" "FLAT,LAMP" "CAL_NB3_1_YJH" 165,
   ifsRow "nb4a" "CALIB" "FLAT,LAMP" "CAL_NB4_2_YJH" 165,
   ifsRow "sp1" "CALIB" "SPECPOS,LAMP" "OBS_H" 165,
   ifsRow "wc1" "CALIB" "WAVE,LAMP" "OBS_H" 165,
   ifsRow "if1" "CALIB" "FLAT,LAMP" "OBS_H" 165,
   ifsRow "dk1" "CALIB" "DARK" "OBS_H" 165,
   ifsRow "sky1" "SCIENCE" "SKY" "OBS_H" 165]

/-- The grouped `files_association` messages on `c6cat`: only the 1550 nm
flat check fires. -/
def c6res : IFS.AssocChecks :=
  { whiteFlat := [], flat1020 := [], flat1230 := [], flat1300 := [],
    flat1550 := [" * Error: there should be 2 flat files for 1550 nm filter!"],
    specpos := [], waveCalib := [], ifuFlat := [], calibsDark := [],
    ditChecks := [] }

end Examples

/-! ### Helper lemmas -/

theorem applyUpdates_eval (u : List (String × RecipeStatus)) (m : StatusMap) (x : String) :
    applyUpdates u m x =
      match u.reverse.find? (fun kv => kv.1 == x) with
      | some kv => kv.2
      | none => m x := by
  induction u generalizing m with
  | nil => rfl
  | cons kv u ih =>
    show applyUpdates u (update_recipe_status m kv.1 kv.2) x = _
    rw [ih, List.reverse_cons, List.find?_append]
    cases h : u.reverse.find? (fun kv => kv.1 == x) with
    | some kv2 => simp [h]
    | none =>
      by_cases hx : kv.1 = x
      · subst hx
        simp [h, update_recipe_status]
      · have hb : (kv.1 == x) = false := by
          simpa using hx
        simp only [h, List.find?, hb, Option.none_or]
        have hxk : ¬(x = kv.1) := fun h2 => hx h2.symm
        simp [update_recipe_status, hxk]

theorem applyUpdates_idem (u : List (String × RecipeStatus)) (m : StatusMap) :
    applyUpdates u (applyUpdates u m) = applyUpdates u m := by
  funext x
  rw [applyUpdates_eval, applyUpdates_eval]
  cases h : u.reverse.find? (fun kv => kv.1 == x) with
  | some kv => simp [h]
  | none => simp [h]

theorem Spectro.read_info_disk (s : Spectro.PState) :
    (Spectro.read_info s).diskFilesCsv = s.diskFilesCsv ∧
    (Spectro.read_info s).diskFramesCsv = s.diskFramesCsv ∧
    (Spectro.read_info s).diskFramesPreprocCsv = s.diskFramesPreprocCsv ∧
    (Spectro.read_info s).wavelengthDefaultFits = s.wavelengthDefaultFits ∧
    (Spectro.read_info s).wavelengthRecalibratedFits = s.wavelengthRecalibratedFits ∧
    (Spectro.read_info s).preprocFits = s.preprocFits ∧
    (Spectro.read_info s).preprocCentersFits = s.preprocCentersFits := by
  unfold Spectro.read_info
  split <;> exact ⟨rfl, rfl, rfl, rfl, rfl, rfl, rfl⟩

theorem Spectro.read_info_aborts_stable (s : Spectro.PState) :
    Spectro.read_info_aborts (Spectro.read_info s) = Spectro.read_info_aborts s := by
  unfold Spectro.read_info_aborts
  rw [(Spectro.read_info_disk s).1]

theorem Spectro.read_info_updates_stable (s : Spectro.PState) :
    Spectro.read_info_updates (Spectro.read_info s) = Spectro.read_info_updates s := by
  obtain ⟨h1, h2, h3, h4, h5, h6, h7⟩ := Spectro.read_info_disk s
  unfold Spectro.read_info_updates
  rw [h1, h2, h3, h4, h5, h6, h7, Spectro.read_info_aborts_stable]

theorem Spectro.read_info_recipes (s : Spectro.PState) :
    (Spectro.read_info s).recipes = applyUpdates (Spectro.read_info_updates s) s.recipes := by
  unfold Spectro.read_info
  split <;> rfl

theorem headD_of_ne_nil {α : Type} {l : List α} (h : l ≠ []) (a b : α) :
    l.headD a = l.headD b := by
  cases l with
  | nil => exact absurd rfl h
  | cons x xs => rfl

theorem Spectro.read_info_of_aborts (t : Spectro.PState)
    (h : Spectro.read_info_aborts t = true) :
    Spectro.read_info t =
      { t with recipes := applyUpdates (Spectro.read_info_updates t) t.recipes } := by
  simp [Spectro.read_info, h]

theorem Spectro.read_info_of_not_aborts (t : Spectro.PState)
    (h : Spectro.read_info_aborts t = false) :
    Spectro.read_info t =
      { t with
        filesInfo := t.diskFilesCsv,
        framesInfo := t.diskFramesCsv,
        framesInfoPreproc := t.diskFramesPreprocCsv,
        recipes := applyUpdates (Spectro.read_info_updates t) t.recipes,
        status := ReductionStatus.INCOMPLETE,
        mode := match t.diskFilesCsv with
                | some fi => ((fi.filter (fun r => r.dprCatg == "SCIENCE")).map
                    (fun r => r.ins1Mode)).headD t.mode
                | none => t.mode } := by
  simp [Spectro.read_info, h]

theorem Spectro.read_info_idem_irdis (s : Spectro.PState) :
    Spectro.read_info (Spectro.read_info s) = Spectro.read_info s := by
  have hu := Spectro.read_info_updates_stable s
  have ha := Spectro.read_info_aborts_stable s
  by_cases h : Spectro.read_info_aborts s = true
  · have h2 : Spectro.read_info_aborts (Spectro.read_info s) = true := by rw [ha, h]
    rw [Spectro.read_info_of_aborts _ h2, hu, Spectro.read_info_recipes s,
      applyUpdates_idem, ← Spectro.read_info_recipes s]
  · have h' : Spectro.read_info_aborts s = false := by
      cases hx : Spectro.read_info_aborts s with
      | true => exact absurd hx h
      | false => rfl
    have h2 : Spectro.read_info_aborts (Spectro.read_info s) = false := by rw [ha, h']
    obtain ⟨h1d, h2d, h3d, _, _, _, _⟩ := Spectro.read_info_disk s
    rw [Spectro.read_info_of_not_aborts _ h2, hu, Spectro.read_info_recipes s,
      applyUpdates_idem, h1d, h2d, h3d]
    rw [Spectro.read_info_of_not_aborts s h']
    cases hfc : s.diskFilesCsv with
    | none => rfl
    | some fi =>
      have hne : (fi.filter (fun r => r.dprCatg == "SCIENCE")).map
          (fun r => r.ins1Mode) ≠ [] := by
        intro hnil
        have : Spectro.read_info_aborts s = true := by
          unfold Spectro.read_info_aborts
          rw [hfc]
          simpa [List.isEmpty_iff, List.map_eq_nil_iff] using hnil
        rw [h'] at this
        exact Bool.false_ne_true this
      simp only
      congr 1
      exact headD_of_ne_nil hne _ _

theorem Sparta.read_info_idem_sparta (s : Sparta.RState) :
    Sparta.read_info (Sparta.read_info s) = Sparta.read_info s := by
  simp [Sparta.read_info, Sparta.read_info_updates, applyUpdates_idem]

/-! ### Claim theorems -/

/-- Claim C4: running status reconstruction (`_read_info`) twice in succession
with no change to the disk state yields identical recipe-status maps and
identical overall reduction status both times — the full reduction state after
the second run equals the state after the first, for both the IRDIS
SpectroReduction variant and the SPARTA variant. -/
theorem claim_C4_reconstruction_idempotent :
    (∀ s : Spectro.PState, Spectro.read_info (Spectro.read_info s) = Spectro.read_info s) ∧
    (∀ s : Sparta.RState, Sparta.read_info (Sparta.read_info s) = Sparta.read_info s) :=
  ⟨Spectro.read_info_idem_irdis, Sparta.read_info_idem_sparta⟩

/-- Claim C10: in the SPARTA variant, for every disk/catalog state, status
reconstruction never assigns Success to `sph_sparta_wfs_parameters` — its
reconstructed status is always NOTSET, even when both `visloop_frames.csv` and
`irloop_frames.csv` exist, because the `visloop`/`irloop` flags are initialized
to `False` and never updated in the branches that read those files. -/
theorem claim_C10_wfs_parameters_never_success :
    ∀ s : Sparta.RState,
      (Sparta.read_info s).recipes "sph_sparta_wfs_parameters" = RecipeStatus.NOTSET := by
  intro s
  rcases s with ⟨fi, rec, st, dfc, d1, d2, d3, d4⟩
  cases dfc <;> cases d1 <;> cases d4 <;>
    simp [Sparta.read_info, Sparta.read_info_updates, applyUpdates, update_recipe_status]

/-- Claim C1 (amended): when the gating predicate is false, calling a GATED
recipe method — one that performs the executability check, such as
`sort_frames` (with any outcome of the external angle computation) or
`check_files_association` — returns without executing, leaving the whole
reduction state — in-memory and on-disk catalogs, recipe-status map, and
overall status — exactly as before the call; in particular the no-op does not
set the state to Fatal.  The ungated `sort_files` method is the exception:
it never consults the predicate (see the counterexample below). -/
theorem claim_C1_gating_noop (s : Spectro.PState) :
    (recipe_executable s.recipes s.status "sort_frames" Spectro.recipe_requirements = false →
      ∀ angles_ok : Bool, Spectro.sort_frames angles_ok s = s) ∧
    (recipe_executable s.recipes s.status "check_files_association"
        Spectro.recipe_requirements = false →
      Spectro.check_files_association s = s) := by
  constructor
  · intro h angles_ok
    simp [Spectro.sort_frames, h]
  · intro h
    simp [Spectro.check_files_association, h]

/-- Witness for C1: on a freshly constructed state (`sort_files` still NOTSET)
the gating predicate is false for both methods and calling them changes
nothing. -/
theorem claim_C1_witness :
    recipe_executable Examples.freshState.recipes Examples.freshState.status "sort_frames"
        Spectro.recipe_requirements = false ∧
    recipe_executable Examples.freshState.recipes Examples.freshState.status
        "check_files_association" Spectro.recipe_requirements = false ∧
    Spectro.sort_frames true Examples.freshState = Examples.freshState ∧
    Spectro.check_files_association Examples.freshState = Examples.freshState := by
  refine ⟨by decide, by decide, ?_, ?_⟩
  · exact (claim_C1_gating_noop Examples.freshState).1 (by decide) true
  · exact (claim_C1_gating_noop Examples.freshState).2 (by decide)

/-- Counterexample to C1 as stated: the claim quantifies over EVERY recipe
method, but `sort_files` performs no executability check.  From a Fatal state
its gating predicate is false, yet calling it with a valid raw directory
executes its body — the in-memory catalog and the recipe-status map change —
and the overall status moves from Fatal to Incomplete. -/
theorem claim_C1_counterexample :
    recipe_executable Examples.fatalState.recipes Examples.fatalState.status
      "sort_files" Spectro.recipe_requirements = false ∧
    (Spectro.sort_files Examples.c5raw Examples.fatalState).recipes "sort_files" =
      RecipeStatus.SUCCESS ∧
    (Spectro.sort_files Examples.c5raw Examples.fatalState).status =
      ReductionStatus.INCOMPLETE ∧
    (Spectro.sort_files Examples.c5raw Examples.fatalState).filesInfo ≠
      Examples.fatalState.filesInfo ∧
    (Spectro.sort_files Examples.c5raw Examples.fatalState).diskFilesCsv ≠
      Examples.fatalState.diskFilesCsv :=
  ⟨by decide, by decide, by decide, by decide, by decide⟩

/-- Claim C5 (amended): once the overall state is Fatal, the gated recipe
methods (those that call `toolbox.recipe_executable`, such as `sort_frames`
and `check_files_association`) never execute their bodies and never change any
state; however `sort_files` performs no gate, so calling it from a Fatal state
executes regardless and, on success, resets the overall state to Incomplete. -/
theorem claim_C5_amended (s : Spectro.PState) (h : s.status = ReductionStatus.FATAL) :
    (∀ angles_ok : Bool, Spectro.sort_frames angles_ok s = s) ∧
    Spectro.check_files_association s = s := by
  have hg : ∀ recipe, recipe_executable s.recipes s.status recipe
      Spectro.recipe_requirements = false := by
    intro recipe
    simp [recipe_executable, h]
  exact ⟨fun a => by simp [Spectro.sort_frames, hg], by simp [Spectro.check_files_association, hg]⟩

/-- Witness for C5 (amended) at a concrete Fatal state. -/
theorem claim_C5_witness :
    Examples.fatalState.status = ReductionStatus.FATAL ∧
    Spectro.sort_frames true Examples.fatalState = Examples.fatalState ∧
    Spectro.check_files_association Examples.fatalState = Examples.fatalState :=
  ⟨rfl, (claim_C5_amended Examples.fatalState rfl).1 true,
    (claim_C5_amended Examples.fatalState rfl).2⟩

/-- Counterexample to C5 as stated: `sort_files` is a recipe method that does
NOT check the gate, so from a Fatal state a call to it with a valid raw
directory executes its body (the in-memory catalog changes) and moves the
overall state from Fatal to Incomplete — Fatal is not a terminal sink for the
whole recipe-method interface. -/
theorem claim_C5_counterexample :
    Examples.fatalState.status = ReductionStatus.FATAL ∧
    (Spectro.sort_files Examples.c5raw Examples.fatalState).status =
      ReductionStatus.INCOMPLETE ∧
    (Spectro.sort_files Examples.c5raw Examples.fatalState).recipes "sort_files" =
      RecipeStatus.SUCCESS ∧
    (Spectro.sort_files Examples.c5raw Examples.fatalState).filesInfo ≠
      Examples.fatalState.filesInfo :=
  ⟨rfl, by decide, by decide, by decide⟩

/-- Claim C2 (amended): when the association pass accumulates
`error_flag > 0`, `check_files_association` aborts without persisting the
catalog (`files.csv` on disk is untouched), the recipe's status becomes Error,
and the OVERALL reduction status is left exactly as it was — it is NOT set to
Fatal, and since no other recipe lists `check_files_association` among its
prerequisites, later recipes are not gated on this outcome. -/
theorem claim_C2_association_error (s : Spectro.PState) (fi : List Spectro.FileRecord)
    (fc : String) (res : Spectro.AssocChecks)
    (hfi : s.filesInfo = some fi)
    (hgate : recipe_executable s.recipes s.status "check_files_association"
      Spectro.recipe_requirements = true)
    (harm : (uniqueList (fi.map (fun r => r.seqArm))).length = 1)
    (hmode : (uniqueList ((fi.filter (fun r => r.dprCatg == "SCIENCE")).map
      (fun r => r.ins1Mode))).length = 1)
    (hcomb : uniqueList ((fi.filter (fun r => r.dprCatg == "SCIENCE")).map
      (fun r => r.insCombIflt)) = [fc])
    (hfc : fc = "S_LR" ∨ fc = "S_MR")
    (hres : Spectro.assoc_checks fc fi = some res)
    (herr : res.error_flag ≠ 0) :
    Spectro.check_files_association s =
      { s with filesInfo := some res.files2,
               recipes := update_recipe_status s.recipes "check_files_association"
                 RecipeStatus.ERROR } ∧
    (Spectro.check_files_association s).status = s.status ∧
    (Spectro.check_files_association s).diskFilesCsv = s.diskFilesCsv := by
  have herr2 : (res.error_flag != 0) = true := by
    simpa [bne_iff_ne] using herr
  have key : Spectro.check_files_association s =
      { s with filesInfo := some res.files2,
               recipes := update_recipe_status s.recipes "check_files_association"
                 RecipeStatus.ERROR } := by
    unfold Spectro.check_files_association
    rcases hfc with rfl | rfl <;>
      simp [hgate, hfi, harm, hmode, hcomb, hres, herr2]
  exact ⟨key, by rw [key], by rw [key]⟩

/-- Witness for C2 (amended) on a concrete catalog with no flat calibration:
`error_flag = 1`, the recipe is marked Error, the in-memory catalog keeps its
(un-dropped) rows, and the persisted catalog and overall status are
unchanged. -/
theorem claim_C2_witness :
    Spectro.check_files_association Examples.c2state =
      { Examples.c2state with
        filesInfo := some Examples.c2res.files2,
        recipes := update_recipe_status Examples.c2state.recipes
          "check_files_association" RecipeStatus.ERROR } ∧
    (Spectro.check_files_association Examples.c2state).status = Examples.c2state.status ∧
    (Spectro.check_files_association Examples.c2state).diskFilesCsv =
      Examples.c2state.diskFilesCsv := by
  have h := claim_C2_association_error Examples.c2state Examples.c2cat "S_LR"
    Examples.c2res rfl (by decide) (by decide) (by decide) (by decide)
    (Or.inl rfl) (by decide) (by decide)
  exact ⟨h.1, h.2.1, h.2.2⟩

/-- Counterexample to C2 as stated: on a concrete catalog whose association
pass accumulates `error_flag = 1`, the recipe is marked Error but the overall
reduction status is NOT Fatal (it stays Incomplete), contradicting the claimed
transition to Fatal. -/
theorem claim_C2_counterexample :
    (Spectro.assoc_checks "S_LR" Examples.c2cat).map Spectro.AssocChecks.error_flag =
      some 1 ∧
    (Spectro.check_files_association Examples.c2state).recipes
      "check_files_association" = RecipeStatus.ERROR ∧
    (Spectro.check_files_association Examples.c2state).status ≠ ReductionStatus.FATAL :=
  ⟨by decide, by decide, by decide⟩

unseal List.merge List.mergeSort in
/-- Claim C3: evaluation of the code at the failing input.  The catalog holds
two `LAMP,WAVE` records, `waveA` at t=0 and `waveB` at t=100, with the
earliest SCIENCE acquisition at t=99, so `waveB` is strictly the time-closest
candidate; yet the association pass keeps `waveA` — the positional head of the
candidate list — drops `waveB` from the in-memory catalog and persists the
catalog without it (`Series.argsort` keeps the original index order, so
`time_delta[1:].index` is just the candidate list minus its first row). -/
theorem claim_C3_tiebreak_keeps_first_not_closest :
    ((99 : Int) - 100).natAbs < ((99 : Int) - 0).natAbs ∧
    (Spectro.check_files_association Examples.c3state).filesInfo =
      some Examples.c3kept ∧
    (Spectro.check_files_association Examples.c3state).diskFilesCsv =
      some Examples.c3kept ∧
    (Spectro.check_files_association Examples.c3state).recipes
      "check_files_association" = RecipeStatus.SUCCESS ∧
    "waveB" ∈ Examples.c3cat.map (fun r => r.file) ∧
    ¬ ("waveB" ∈ Examples.c3kept.map (fun r => r.file)) :=
  ⟨by decide, by decide, by decide, by decide, by decide, by decide⟩

theorem Spectro.build_frames_fst_mem {l : List Spectro.FileRecord}
    {fr : (String × Nat) × Spectro.FileRecord} (h : fr ∈ Spectro.build_frames l) :
    fr.1.1 ∈ l.map (fun r => r.file) := by
  unfold Spectro.build_frames at h
  rcases List.mem_flatMap.mp h with ⟨a, ha, hfr⟩
  rcases List.mem_map.mp hfr with ⟨i, _, rfl⟩
  exact List.mem_map.mpr ⟨a, ha, rfl⟩

theorem Spectro.build_frames_filter (sci : List Spectro.FileRecord)
    (r : Spectro.FileRecord) (hmem : r ∈ sci)
    (hnodup : (sci.map (fun x => x.file)).Nodup) :
    (Spectro.build_frames sci).filter (fun fr => fr.1.1 == r.file) =
      (List.range r.detNdit).map (fun i => ((r.file, i), r)) := by
  induction sci with
  | nil => cases hmem
  | cons a tl ih =>
    have hcons : Spectro.build_frames (a :: tl) =
        ((List.range a.detNdit).map (fun i => ((a.file, i), a))) ++
          Spectro.build_frames tl := by
      unfold Spectro.build_frames
      rw [List.flatMap_cons]
    rw [hcons, List.filter_append]
    have hna : a.file ∉ tl.map (fun x => x.file) := by
      rw [List.map_cons, List.nodup_cons] at hnodup
      exact hnodup.1
    rcases List.mem_cons.mp hmem with rfl | hmem2
    · have h1 : ((List.range r.detNdit).map (fun i => ((r.file, i), r))).filter
          (fun fr => fr.1.1 == r.file) =
            (List.range r.detNdit).map (fun i => ((r.file, i), r)) := by
        apply List.filter_eq_self.mpr
        intro fr hfr
        rcases List.mem_map.mp hfr with ⟨i, _, rfl⟩
        exact beq_self_eq_true r.file
      have h2 : (Spectro.build_frames tl).filter (fun fr => fr.1.1 == r.file) = [] := by
        apply List.filter_eq_nil_iff.mpr
        intro fr hfr hbeq
        exact hna (eq_of_beq hbeq ▸ Spectro.build_frames_fst_mem hfr)
      rw [h1, h2, List.append_nil]
    · have hrf : r.file ∈ tl.map (fun x => x.file) :=
        List.mem_map.mpr ⟨r, hmem2, rfl⟩
      have hne : a.file ≠ r.file := fun he => hna (he ▸ hrf)
      have h1 : ((List.range a.detNdit).map (fun i => ((a.file, i), a))).filter
          (fun fr => fr.1.1 == r.file) = [] := by
        apply List.filter_eq_nil_iff.mpr
        intro fr hfr hbeq
        rcases List.mem_map.mp hfr with ⟨i, _, rfl⟩
        exact hne (eq_of_beq hbeq)
      have hnodup2 : (tl.map (fun x => x.file)).Nodup := by
        rw [List.map_cons, List.nodup_cons] at hnodup
        exact hnodup.2
      rw [h1, ih hmem2 hnodup2, List.nil_append]

/-- Claim C7: for every science record (SCIENCE category, non-SKY type) with
NDIT = k in a catalog with unique file identifiers, the frame expansion of
`sort_frames` emits exactly k sub-frame records for that parent, with
sub-indices forming the contiguous range 0..k-1 in increasing order, each
inheriting the full parent record. -/
theorem claim_C7_frame_expansion (catalog : List Spectro.FileRecord)
    (r : Spectro.FileRecord) (k : Nat)
    (hnodup : (catalog.map (fun x => x.file)).Nodup)
    (hr : r ∈ catalog) (hcatg : r.dprCatg = "SCIENCE") (htype : r.dprType ≠ "SKY")
    (hk : r.detNdit = k) :
    ((Spectro.build_frames (catalog.filter (fun x =>
        x.dprCatg == "SCIENCE" && !(x.dprType == "SKY")))).filter
      (fun fr => fr.1.1 == r.file)) =
        (List.range k).map (fun i => ((r.file, i), r)) ∧
    ((Spectro.build_frames (catalog.filter (fun x =>
        x.dprCatg == "SCIENCE" && !(x.dprType == "SKY")))).filter
      (fun fr => fr.1.1 == r.file)).length = k ∧
    ((Spectro.build_frames (catalog.filter (fun x =>
        x.dprCatg == "SCIENCE" && !(x.dprType == "SKY")))).filter
      (fun fr => fr.1.1 == r.file)).map (fun fr => fr.1.2) = List.range k ∧
    ∀ fr ∈ ((Spectro.build_frames (catalog.filter (fun x =>
        x.dprCatg == "SCIENCE" && !(x.dprType == "SKY")))).filter
      (fun fr => fr.1.1 == r.file)), fr.2 = r := by
  have hmem : r ∈ catalog.filter (fun x =>
      x.dprCatg == "SCIENCE" && !(x.dprType == "SKY")) := by
    apply List.mem_filter.mpr
    refine ⟨hr, ?_⟩
    have ht : (r.dprType == "SKY") = false := by
      simpa using htype
    simp [hcatg, ht]
  have hnodup2 : ((catalog.filter (fun x =>
      x.dprCatg == "SCIENCE" && !(x.dprType == "SKY"))).map (fun x => x.file)).Nodup :=
    ((List.filter_sublist catalog).map (fun x => x.file)).nodup hnodup
  have hmain := Spectro.build_frames_filter _ r hmem hnodup2
  rw [hk] at hmain
  refine ⟨hmain, ?_, ?_, ?_⟩
  · rw [hmain, List.length_map, List.length_range]
  · rw [hmain, List.map_map]
    have : ((fun fr : (String × Nat) × Spectro.FileRecord => fr.1.2) ∘
        fun i => ((r.file, i), r)) = fun i => i := rfl
    rw [this, List.map_id']
  · intro fr hfr
    rw [hmain] at hfr
    rcases List.mem_map.mp hfr with ⟨i, _, rfl⟩
    rfl

/-- Witness for C7: one science cube with NDIT = 3 expands to exactly the three
sub-frames `(sci1, 0), (sci1, 1), (sci1, 2)`, each inheriting the parent. -/
theorem claim_C7_witness :
    ((Spectro.build_frames (Examples.c7cat.filter (fun x =>
        x.dprCatg == "SCIENCE" && !(x.dprType == "SKY")))).filter
      (fun fr => fr.1.1 == (Examples.row "sci1" "SCIENCE" "OBJECT" 165 0 3).file)) =
        (List.range 3).map (fun i =>
          (((Examples.row "sci1" "SCIENCE" "OBJECT" 165 0 3).file, i),
            Examples.row "sci1" "SCIENCE" "OBJECT" 165 0 3)) ∧
    ((Spectro.build_frames (Examples.c7cat.filter (fun x =>
        x.dprCatg == "SCIENCE" && !(x.dprType == "SKY")))).filter
      (fun fr => fr.1.1 == (Examples.row "sci1" "SCIENCE" "OBJECT" 165 0 3).file)).length = 3 := by
  have h := claim_C7_frame_expansion Examples.c7cat
    (Examples.row "sci1" "SCIENCE" "OBJECT" 165 0 3) 3
    (by decide) (by decide) rfl (by decide) rfl
  exact ⟨h.1, h.2.1⟩

theorem sum_map_add {α : Type} (l : List α) (f g : α → Nat) :
    (l.map (fun a => f a + g a)).sum = (l.map f).sum + (l.map g).sum := by
  induction l with
  | nil => rfl
  | cons a tl ih =>
    simp only [List.map_cons, List.sum_cons, ih]
    omega

theorem sum_map_ite_eq_countP {α : Type} (l : List α) (p : α → Bool) :
    (l.map (fun a => if p a then 1 else 0)).sum = l.countP p := by
  induction l with
  | nil => rfl
  | cons a tl ih =>
    by_cases h : p a
    · simp [List.countP_cons, h, ih]
      omega
    · simp [List.countP_cons, h, ih]

set_option maxHeartbeats 1000000 in
/-- Claim C8: the dark/background and sky-background requirements are evaluated
once per distinct (rounded) DIT among OBJECT-type SCIENCE records; each DIT
with no matching dark (resp. sky) increments the warning counter only — the
DIT-grouped checks never contribute to `error_flag`, so when the three
Fatal-severity checks are satisfied the association succeeds (recipe SUCCESS,
overall status Incomplete, catalog persisted) no matter how many DIT warnings
were raised.  (DITs are modelled as exact hundredths, so `.round(2)` is the
identity and `unique()` deduplicates exactly the rounded values.) -/
theorem claim_C8_dit_checks_warn_only (s : Spectro.PState)
    (fi : List Spectro.FileRecord) (fc : String) (res : Spectro.AssocChecks)
    (hfi : s.filesInfo = some fi)
    (hgate : recipe_executable s.recipes s.status "check_files_association"
      Spectro.recipe_requirements = true)
    (harm : (uniqueList (fi.map (fun r => r.seqArm))).length = 1)
    (hmode : (uniqueList ((fi.filter (fun r => r.dprCatg == "SCIENCE")).map
      (fun r => r.ins1Mode))).length = 1)
    (hcomb : uniqueList ((fi.filter (fun r => r.dprCatg == "SCIENCE")).map
      (fun r => r.insCombIflt)) = [fc])
    (hfc : fc = "S_LR" ∨ fc = "S_MR")
    (hres : Spectro.assoc_checks fc fi = some res)
    (herr0 : res.flat_error + res.wave_error + res.wavecal_dark_error = 0) :
    res.error_flag = 0 ∧
    res.dit_warning =
      (uniqueList ((res.files2.filter (fun r =>
          r.dprCatg == "SCIENCE" && r.dprType.take 6 == "OBJECT")).map
            (fun r => r.detSeq1Dit))).countP (fun DIT =>
        ((fi.filter (fun r =>
            r.dprCatg == "CALIB" || (r.dprCatg == "SCIENCE" && r.dprType == "SKY"))).filter
          (fun r => (r.dprType == "DARK" || r.dprType == "DARK,BACKGROUND") &&
            r.detSeq1Dit == DIT)).length == 0) +
      (uniqueList ((res.files2.filter (fun r =>
          r.dprCatg == "SCIENCE" && r.dprType.take 6 == "OBJECT")).map
            (fun r => r.detSeq1Dit))).countP (fun DIT =>
        (res.files2.filter (fun r =>
          r.dprType == "SKY" && r.detSeq1Dit == DIT)).length == 0) ∧
    (Spectro.check_files_association s).status = ReductionStatus.INCOMPLETE ∧
    (Spectro.check_files_association s).recipes "check_files_association" =
      RecipeStatus.SUCCESS ∧
    (Spectro.check_files_association s).diskFilesCsv = some res.files2 := by
  have herrf : res.error_flag = 0 := herr0
  have herr2 : (res.error_flag != 0) = false := by
    simp [herrf]
  have hwrap : Spectro.check_files_association s =
      { s with filesInfo := some res.files2,
               diskFilesCsv := some res.files2,
               recipes := update_recipe_status s.recipes "check_files_association"
                 RecipeStatus.SUCCESS,
               status := ReductionStatus.INCOMPLETE } := by
    unfold Spectro.check_files_association
    rcases hfc with rfl | rfl <;>
      simp [hgate, hfi, harm, hmode, hcomb, hres, herr2]
  refine ⟨herrf, ?_, ?_, ?_, ?_⟩
  · -- extract the dit fields from the definition of assoc_checks
    unfold Spectro.assoc_checks at hres
    dsimp only at hres
    split at hres
    · exact absurd hres (by simp)
    · have hr := Option.some.inj hres
      subst hr
      dsimp only
      generalize uniqueList (List.map (fun r => r.detSeq1Dit)
        (List.filter (fun r => r.dprCatg == "SCIENCE" && r.dprType.take 6 == "OBJECT")
          (if (List.filter (fun r => r.dprType == "LAMP,WAVE" && r.insCombIflt == fc)
                (List.filter (fun r => r.dprCatg == "CALIB" ||
                  r.dprCatg == "SCIENCE" && r.dprType == "SKY") fi)).length > 1
            then _ else fi))) = DITlist
      induction DITlist with
      | nil => rfl
      | cons a l ih =>
        simp only [List.map_cons, List.sum_cons, List.countP_cons, ih]
        split_ifs <;> omega
  · rw [hwrap]
  · rw [hwrap]
    simp [update_recipe_status]
  · rw [hwrap]

set_option maxRecDepth 10000 in
/-- Witness for C8 on the concrete scenario of the claim: science DITs
1.65 s and 4.00 s, dark present only at 1.65 s — one warning (for the
DIT=4.00 dark), zero errors, and the association pass succeeds with the
overall status Incomplete (no Fatal). -/
theorem claim_C8_witness :
    Examples.c8res.error_flag = 0 ∧
    Examples.c8res.dit_warning = 1 ∧
    Examples.c8res.dit_msgs =
      [" * there is no dark/background for science files with DIT=4.0 sec. It is *highly recommended* to include one to obtain the best data reduction. A single dark/background file is sufficient, and it can easily be downloaded from the ESO archive"] ∧
    (Spectro.check_files_association Examples.c8state).status =
      ReductionStatus.INCOMPLETE ∧
    (Spectro.check_files_association Examples.c8state).recipes
      "check_files_association" = RecipeStatus.SUCCESS := by
  have h := claim_C8_dit_checks_warn_only Examples.c8state Examples.c8cat "S_LR"
    Examples.c8res rfl (by decide) (by decide) (by decide) (by decide)
    (Or.inl rfl) (by decide) (by decide)
  exact ⟨h.1, by decide, by decide, h.2.2.1, h.2.2.2.1⟩

theorem IFS.files_association_of_mode (fi : List IFS.FileRecord)
    (hmode : uniqueList ((fi.filter (fun r => r.dprCatg == "SCIENCE")).map
      (fun r => r.ins2CombIfs)) = ["OBS_H"]) :
    IFS.files_association fi = Except.ok (IFS.assoc_checks "OBS_H" "YJH" fi) := by
  unfold IFS.files_association
  simp only [hmode]
  rfl

set_option maxHeartbeats 1000000 in
/-- Claim C6 (amended): with exactly 2 FLAT,LAMP records matching the active
mode's wide-channel selector the association pass raises no error for that
rule; with exactly 1 such record an error is reported, but its message is
" * Error: there should be 2 flat files for 1550 nm filter!" in the IFS
variant (a print that by itself halts nothing), and in the IRDIS variant the
check is `len(cfiles) <= 1` with message " * there should be more than 1 flat
in filter combination <comb>" counted in `error_flag` — no variant produces a
message stating "2 flat files expected, found 1". -/
theorem claim_C6_flat_cardinality (fi : List IFS.FileRecord)
    (res : IFS.AssocChecks) (cal : List IFS.FileRecord)
    (hmode : uniqueList ((fi.filter (fun r => r.dprCatg == "SCIENCE")).map
      (fun r => r.ins2CombIfs)) = ["OBS_H"])
    (hres : IFS.files_association fi = Except.ok (res, cal))
    (fi2 : List Spectro.FileRecord) (fc : String) (res2 : Spectro.AssocChecks)
    (hres2 : Spectro.assoc_checks fc fi2 = some res2) :
    (IFS.countFlat cal "CAL_NB4_2_YJH" = 2 → res.flat1550 = []) ∧
    (IFS.countFlat cal "CAL_NB4_2_YJH" = 1 →
      res.flat1550 = [" * Error: there should be 2 flat files for 1550 nm filter!"]) ∧
    (((fi2.filter (fun r => r.dprCatg == "CALIB" ||
          (r.dprCatg == "SCIENCE" && r.dprType == "SKY"))).filter
        (fun r => r.dprType == "FLAT,LAMP" && r.insCombIflt == fc)).length = 2 →
      res2.flat_error = 0 ∧ res2.flat_msgs = []) ∧
    (((fi2.filter (fun r => r.dprCatg == "CALIB" ||
          (r.dprCatg == "SCIENCE" && r.dprType == "SKY"))).filter
        (fun r => r.dprType == "FLAT,LAMP" && r.insCombIflt == fc)).length = 1 →
      res2.flat_error = 1 ∧ res2.flat_msgs =
        [" * there should be more than 1 flat in filter combination " ++ fc]) := by
  have hok : (Except.ok (IFS.assoc_checks "OBS_H" "YJH" fi) :
      Except String (IFS.AssocChecks × List IFS.FileRecord)) = Except.ok (res, cal) :=
    (IFS.files_association_of_mode fi hmode).symm.trans hres
  have hpair : IFS.assoc_checks "OBS_H" "YJH" fi = (res, cal) := by
    injection hok
  have hresv : res = (IFS.assoc_checks "OBS_H" "YJH" fi).1 := by rw [hpair]
  have hcal : cal = (IFS.assoc_checks "OBS_H" "YJH" fi).2 := by rw [hpair]
  have hifs : res.flat1550 =
      (if IFS.countFlat cal "CAL_NB4_2_YJH" != 2 then
        [" * Error: there should be 2 flat files for 1550 nm filter!"] else []) := by
    rw [hresv, hcal]
    rfl
  have hird : res2.flat_error =
      (if ((fi2.filter (fun r => r.dprCatg == "CALIB" ||
            (r.dprCatg == "SCIENCE" && r.dprType == "SKY"))).filter
          (fun r => r.dprType == "FLAT,LAMP" && r.insCombIflt == fc)).length ≤ 1
        then 1 else 0) ∧
      res2.flat_msgs =
      (if ((fi2.filter (fun r => r.dprCatg == "CALIB" ||
            (r.dprCatg == "SCIENCE" && r.dprType == "SKY"))).filter
          (fun r => r.dprType == "FLAT,LAMP" && r.insCombIflt == fc)).length ≤ 1
        then [" * there should be more than 1 flat in filter combination " ++ fc]
        else []) := by
    unfold Spectro.assoc_checks at hres2
    dsimp only at hres2
    split at hres2
    · exact absurd hres2 (by simp)
    · have hr := Option.some.inj hres2
      subst hr
      exact ⟨rfl, rfl⟩
  refine ⟨?_, ?_, ?_, ?_⟩
  · intro h2
    rw [hifs, h2]
    rfl
  · intro h1
    rw [hifs, h1]
    rfl
  · intro h2
    rw [hird.1, hird.2, h2]
    simp
  · intro h1
    rw [hird.1, hird.2, h1]
    simp

set_option maxRecDepth 10000 in
/-- Witness for C6 (amended): the IFS dataset `c6cat` has exactly one
1550 nm flat and gets exactly the " * Error: there should be 2 flat files for
1550 nm filter!" message; the IRDIS dataset `c8cat` has exactly two matching
flats and its flat check raises nothing. -/
theorem claim_C6_witness :
    IFS.countFlat Examples.c6calibs "CAL_NB4_2_YJH" = 1 ∧
    Examples.c6res.flat1550 =
      [" * Error: there should be 2 flat files for 1550 nm filter!"] ∧
    ((Examples.c8cat.filter (fun r => r.dprCatg == "CALIB" ||
        (r.dprCatg == "SCIENCE" && r.dprType == "SKY"))).filter
      (fun r => r.dprType == "FLAT,LAMP" && r.insCombIflt == "S_LR")).length = 2 ∧
    Examples.c8res.flat_error = 0 ∧ Examples.c8res.flat_msgs = [] := by
  have h := claim_C6_flat_cardinality Examples.c6cat Examples.c6res Examples.c6calibs
    (by decide)
    ((IFS.files_association_of_mode Examples.c6cat (by decide)).trans
      (congrArg Except.ok (by decide :
        IFS.assoc_checks "OBS_H" "YJH" Examples.c6cat =
          (Examples.c6res, Examples.c6calibs))))
    Examples.c8cat "S_LR" Examples.c8res (by decide)
  exact ⟨by decide, h.2.1 (by decide), by decide, (h.2.2.1 (by decide)).1,
    (h.2.2.1 (by decide)).2⟩

set_option maxRecDepth 10000 in
/-- Counterexample to C6 as stated: on a dataset whose wide-channel (1550 nm)
flat appears exactly once, the association pass emits exactly one message,
" * Error: there should be 2 flat files for 1550 nm filter!", and no emitted
message is the claimed "2 flat files expected, found 1". -/
theorem claim_C6_counterexample :
    (IFS.files_association Examples.c6cat).toOption.map
      (fun p => p.1.allMessages) =
      some [" * Error: there should be 2 flat files for 1550 nm filter!"] ∧
    (IFS.files_association Examples.c6cat).toOption.map
      (fun p => p.1.allMessages.contains "2 flat files expected, found 1") =
      some false :=
  ⟨by decide, by decide⟩

theorem seriesArgmin_lt_length {l : List Nat} (h : l ≠ []) :
    seriesArgmin l < l.length := by
  unfold seriesArgmin
  cases hm : l.min? with
  | none => exact absurd (List.min?_eq_none_iff.mp hm) h
  | some m =>
    have hmem : m ∈ l := List.min?_mem (fun a b => min_choice a b) hm
    exact List.findIdx_lt_length_of_exists ⟨m, hmem, by simp⟩

theorem seriesArgmin_spec {l : List Nat} (h : l ≠ []) :
    ∃ hlt : seriesArgmin l < l.length,
      (∀ x ∈ l, l.get ⟨seriesArgmin l, hlt⟩ ≤ x) ∧
      (∀ j, ∀ hj : j < l.length, j < seriesArgmin l →
        l.get ⟨seriesArgmin l, hlt⟩ < l.get ⟨j, hj⟩) := by
  have hlt := seriesArgmin_lt_length h
  refine ⟨hlt, ?_, ?_⟩ <;>
  · cases hm : l.min? with
    | none => exact absurd (List.min?_eq_none_iff.mp hm) h
    | some m =>
      have harg : seriesArgmin l = l.findIdx (fun x => x == m) := by
        unfold seriesArgmin
        rw [hm]
      have hspec := (List.min?_eq_some_iff (fun a => Nat.le_refl a)
        (fun a b => min_choice a b) (fun a b c => Nat.le_min)).mp hm
      have hlt2 : l.findIdx (fun x => x == m) < l.length := harg ▸ hlt
      have hval : l.get ⟨seriesArgmin l, hlt⟩ = m := by
        have := List.findIdx_get (p := fun x => x == m) (w := hlt2)
        have h2 : l.get ⟨l.findIdx (fun x => x == m), hlt2⟩ = m := by
          exact eq_of_beq this
        simp only [harg]
        exact h2
      first
      | exact fun x hx => hval ▸ hspec.2 x hx
      | · intro j hj hji
          have hjlt : j < l.findIdx (fun x => x == m) := harg ▸ hji
          have hne := List.not_of_lt_findIdx hjlt
          have hne2 : ¬(l.get ⟨j, hj⟩ = m) := by
            intro he
            rw [show l.get ⟨j, hj⟩ = l[j] from rfl] at he
            simp [he] at hne
          have hge : m ≤ l.get ⟨j, hj⟩ := hspec.2 _ (l.get_mem j hj)
          rw [hval]
          exact lt_of_le_of_ne hge (fun he => hne2 he.symm)

unseal String.mapAux in
/-- Claim C9: with the centering candidates listed in catalog order (which is
ascending in acquisition time, since `sort_files` sorts the catalog by
`DATE-OBS` and the frame tables preserve that order), policy `first` selects
the candidate with the lowest acquisition time; policy `time`
(nearest-in-time) selects a candidate minimizing the absolute time difference
to the science frame, with ties broken by the lowest acquisition time; and in
the concrete case of candidates at t=0,5,20 with science at t=6, `time`
selects the candidate at position 1 (t=5) and `first` position 0 (t=0). -/
theorem claim_C9_center_selection (cen_times : List Int) (time_sci : Int)
    (hsorted : cen_times.Sorted (· ≤ ·)) (hne : cen_times ≠ []) :
    (∃ i, Spectro.select_center_index "first" cen_times time_sci = some i ∧
      ∃ hi : i < cen_times.length, ∀ t ∈ cen_times, cen_times.get ⟨i, hi⟩ ≤ t) ∧
    (∃ i, Spectro.select_center_index "time" cen_times time_sci = some i ∧
      ∃ hi : i < cen_times.length,
        (∀ t ∈ cen_times,
          (time_sci - cen_times.get ⟨i, hi⟩).natAbs ≤ (time_sci - t).natAbs) ∧
        (∀ j, ∀ hj : j < cen_times.length,
          (time_sci - cen_times.get ⟨j, hj⟩).natAbs =
            (time_sci - cen_times.get ⟨i, hi⟩).natAbs →
          cen_times.get ⟨i, hi⟩ ≤ cen_times.get ⟨j, hj⟩)) ∧
    Spectro.select_center_index "time" [0, 5, 20] 6 = some 1 ∧
    Spectro.select_center_index "first" [0, 5, 20] 6 = some 0 := by
  have hmapne : cen_times.map (fun t => (time_sci - t).natAbs) ≠ [] := by
    intro hnil
    exact hne (List.map_eq_nil_iff.mp hnil)
  refine ⟨?_, ?_, by decide, by decide⟩
  · refine ⟨0, rfl, List.length_pos.mpr hne, ?_⟩
    intro t ht
    cases cen_times with
    | nil => exact absurd rfl hne
    | cons a tl =>
      rcases List.mem_cons.mp ht with rfl | htl
      · exact le_refl t
      · exact (List.sorted_cons.mp hsorted).1 t htl
  · obtain ⟨hlt, hmin, hfirst⟩ := seriesArgmin_spec hmapne
    have hlen : (cen_times.map (fun t => (time_sci - t).natAbs)).length =
        cen_times.length := List.length_map _ _
    have hlt2 : seriesArgmin (cen_times.map (fun t => (time_sci - t).natAbs)) <
        cen_times.length := hlen ▸ hlt
    refine ⟨seriesArgmin (cen_times.map (fun t => (time_sci - t).natAbs)), rfl,
      hlt2, ?_, ?_⟩
    · intro t ht
      have := hmin ((time_sci - t).natAbs) (List.mem_map.mpr ⟨t, ht, rfl⟩)
      rwa [List.get_map] at this
    · intro j hj heq
      rcases Nat.lt_or_ge j (seriesArgmin (cen_times.map
        (fun t => (time_sci - t).natAbs))) with hji | hij
      · exfalso
        have hjdl : j < (cen_times.map (fun t => (time_sci - t).natAbs)).length := by
          rw [hlen]
          exact hj
        have hstrict := hfirst j hjdl hji
        have heqd : (cen_times.map (fun t => (time_sci - t).natAbs)).get ⟨j, hjdl⟩ =
            (cen_times.map (fun t => (time_sci - t).natAbs)).get
              ⟨seriesArgmin (cen_times.map (fun t => (time_sci - t).natAbs)), hlt⟩ := by
          rw [List.get_map, List.get_map]
          exact heq
        omega
      · have hf : (⟨seriesArgmin (cen_times.map (fun t => (time_sci - t).natAbs)),
            hlt2⟩ : Fin cen_times.length) ≤ ⟨j, hj⟩ := hij
        exact hsorted.rel_get_of_le hf

/-- Witness for C9 at the concrete candidate times 0, 5, 20 and science time
6: `time` picks position 1 (the candidate at t=5) and `first` position 0. -/
theorem claim_C9_witness :
    Spectro.select_center_index "time" [0, 5, 20] 6 = some 1 ∧
    Spectro.select_center_index "first" [0, 5, 20] 6 = some 0 := by
  have h := claim_C9_center_selection [0, 5, 20] 6 (by decide) (by decide)
  exact ⟨h.2.2.1, h.2.2.2⟩
